import Mathlib

/-!
Verification of the benchmark/metrics subsystem of the database playground
(`src/utils/benchmarking.py` and its reporting routes in
`src/api/benchmark_routes.py`), shallowly embedded over exact rationals.

Modelling conventions, stated once here:
* Python floats are modelled as exact rationals `ℚ`; Python's `round(x, 2)`
  (round-half-to-even) is modelled exactly on `ℚ` by `round2`.
* The wall-clock timestamp field (`datetime.now().isoformat()`) is an external
  clock read that no property below mentions; it is omitted from `Metric`.
  Likewise the clock reads `time.time()` of the decorator are passed in as
  explicit `start_time` / `end_time` arguments.
* `float('inf')`, used only as the initial running minimum inside
  `get_summary`, is modelled by `none : Option ℚ` (`pyMinInf none b = b`,
  exactly as `min(float('inf'), b) = b` for every finite `b`).
* Python's insertion-ordered `dict` keyed by strings is modelled by an
  insertion-ordered association list `List (String × _)`.
-/

set_option maxRecDepth 8000

namespace Playground

/-- One recorded metric, as built by `BenchmarkTracker.record`
(`benchmarking.py` lines 13–22): the `db_type`, `operation`, the duration in
milliseconds as stored (already rounded to 2 decimals by `record`), and the
metadata mapping (`metadata or {}`). -/
structure Metric where
  db_type : String
  operation : String
  duration_ms : ℚ
  metadata : List (String × String)
deriving DecidableEq

/-- Round-half-to-even to an integer: Python's builtin `round` on an exact
rational value. -/
def pyRoundInt (x : ℚ) : ℤ :=
  if x - (⌊x⌋ : ℚ) < 1/2 then ⌊x⌋
  else if (1:ℚ)/2 < x - (⌊x⌋ : ℚ) then ⌊x⌋ + 1
  else if ⌊x⌋ % 2 = 0 then ⌊x⌋ else ⌊x⌋ + 1

/-- Python's `round(x, 2)`. -/
def round2 (x : ℚ) : ℚ := (pyRoundInt (x * 100) : ℚ) / 100

/-- The tracker state: the single field `self.metrics`, a growable list. -/
structure BenchmarkTracker where
  metrics : List Metric
deriving DecidableEq

/-- `BenchmarkTracker.__init__`: `self.metrics = []`. -/
def BenchmarkTracker.empty : BenchmarkTracker := ⟨[]⟩

/-- `BenchmarkTracker.record` (lines 13–22): appends a metric whose
`duration_ms` is `round(duration * 1000, 2)` and whose metadata is
`metadata or {}`. -/
def BenchmarkTracker.record (t : BenchmarkTracker) (db_type operation : String)
    (duration : ℚ) (metadata : Option (List (String × String))) :
    BenchmarkTracker :=
  ⟨t.metrics ++
    [{ db_type := db_type, operation := operation,
       duration_ms := round2 (duration * 1000),
       metadata := metadata.getD [] }]⟩

/-- `BenchmarkTracker.get_metrics` (lines 24–34). Both arguments default to
`None` in Python and are tested with `if db_type:` / `if operation:`, so
`none` and `some ""` (the two falsy values) both mean "no filter". -/
def BenchmarkTracker.get_metrics (t : BenchmarkTracker)
    (db_type operation : Option String) : List Metric :=
  let filtered := t.metrics
  let filtered :=
    match db_type with
    | none => filtered
    | some s => if s = "" then filtered else filtered.filter fun m => m.db_type == s
  let filtered :=
    match operation with
    | none => filtered
    | some s => if s = "" then filtered else filtered.filter fun m => m.operation == s
  filtered

/-- `BenchmarkTracker.get_average` (lines 36–41): `0` on an empty selection,
otherwise the mean of the selected `duration_ms` values. -/
def BenchmarkTracker.get_average (t : BenchmarkTracker)
    (db_type operation : String) : ℚ :=
  let ms := t.get_metrics (some db_type) (some operation)
  if ms.isEmpty then 0
  else (ms.map Metric.duration_ms).sum / (ms.length : ℚ)

/-- `BenchmarkTracker.clear` (lines 43–45): `self.metrics = []`. -/
def BenchmarkTracker.clear (_t : BenchmarkTracker) : BenchmarkTracker := ⟨[]⟩

/-- Running minimum whose initial Python value is `float('inf')`, modelled by
`none`: `min(float('inf'), b) = b` for every finite `b`. -/
def pyMinInf (a : Option ℚ) (b : ℚ) : ℚ :=
  match a with
  | none => b
  | some x => min x b

/-- One in-progress `summary[key]` dict of `get_summary` before the averaging
pass adds `avg_ms`: the fields set at lines 62–69 and updated at lines 71–74. -/
structure SummaryAcc where
  db_type : String
  operation : String
  count : ℕ
  total_ms : ℚ
  min_ms : Option ℚ
  max_ms : ℚ
deriving DecidableEq

/-- One element of the list returned by `get_summary`, after `avg_ms` is
added (lines 77–80). -/
structure SummaryEntry where
  db_type : String
  operation : String
  count : ℕ
  total_ms : ℚ
  min_ms : Option ℚ
  max_ms : ℚ
  avg_ms : ℚ
deriving DecidableEq

/-- Lines 71–74 of `get_summary`: fold one metric into its group's dict. -/
def summaryUpdate (acc : SummaryAcc) (m : Metric) : SummaryAcc :=
  { acc with
    count := acc.count + 1
    total_ms := acc.total_ms + m.duration_ms
    min_ms := some (pyMinInf acc.min_ms m.duration_ms)
    max_ms := max acc.max_ms m.duration_ms }

/-- The body of the first loop of `get_summary` (lines 56–74) for one metric:
the grouping key is the concatenation `f"{db_type}_{operation}"` (line 59); a
missing key is inserted at the end (Python dicts preserve insertion order)
with `count 0`, `total_ms 0`, `min_ms float('inf')`, `max_ms 0`, then the
key's dict is updated in place. -/
def summaryStep (summary : List (String × SummaryAcc)) (m : Metric) :
    List (String × SummaryAcc) :=
  let key := m.db_type ++ "_" ++ m.operation
  let summary :=
    if summary.any fun p => p.1 == key then summary
    else summary ++ [(key, ⟨m.db_type, m.operation, 0, 0, none, 0⟩)]
  summary.map fun p => if p.1 == key then (p.1, summaryUpdate p.2 m) else p

/-- `BenchmarkTracker.get_summary` (lines 52–82): group all metrics, then add
`avg_ms = round(total_ms / count, 2)` to each group and return
`list(summary.values())` in key-insertion order. -/
def BenchmarkTracker.get_summary (t : BenchmarkTracker) : List SummaryEntry :=
  (t.metrics.foldl summaryStep []).map fun p =>
    ⟨p.2.db_type, p.2.operation, p.2.count, p.2.total_ms, p.2.min_ms,
      p.2.max_ms, round2 (p.2.total_ms / (p.2.count : ℚ))⟩

/-- Route `GET /benchmarks/metrics` (`benchmark_routes.py` lines 11–14), the
spec's `list_all()`: returns `tracker.metrics` directly. -/
def get_all_metrics (t : BenchmarkTracker) : List Metric := t.metrics

/-- Route `GET /benchmarks/metrics/{db_type}` (lines 21–24): filter by
subsystem only. -/
def get_metrics_by_db (t : BenchmarkTracker) (db_type : String) : List Metric :=
  t.get_metrics (some db_type) none

/-- The `benchmark(db_type, operation)` decorator (`benchmarking.py` lines
87–99) applied to an operation `f` that either returns a value or raises
(`Except`). The two `time.time()` reads are the explicit `start_time` and
`end_time` arguments. If `f` raises, control leaves the wrapper before the
`record` call, so the tracker is untouched and the exception propagates;
otherwise `record db_type operation (end_time - start_time)` runs (no
metadata) and the result is returned unchanged. -/
def benchmark (db_type operation : String) (f : α → Except ε β)
    (start_time end_time : ℚ) (t : BenchmarkTracker) (x : α) :
    Except ε β × BenchmarkTracker :=
  match f x with
  | .error e => (.error e, t)
  | .ok result =>
      (.ok result, t.record db_type operation (end_time - start_time) none)

/-- A whole sequence of `record` calls, in order. -/
def recordAll (t : BenchmarkTracker) (calls : List (String × String × ℚ)) :
    BenchmarkTracker :=
  calls.foldl (fun acc c => acc.record c.1 c.2.1 c.2.2 none) t

/-- The stored samples matching one (subsystem, operation) pair — used to
state per-group properties. -/
def pairGroup (t : BenchmarkTracker) (s o : String) : List Metric :=
  t.metrics.filter fun m => m.db_type == s && m.operation == o

/-- One reporting request against the tracker. -/
inductive Req where
  | record (db_type operation : String) (duration : ℚ)
  | clear
  | getSummary
  | getMetrics (db_type operation : Option String)

/-- What a request returns. -/
inductive Output where
  | ack
  | metricList (l : List Metric)
  | summaryList (l : List SummaryEntry)
deriving DecidableEq

/-- Request-level small step: the tracker state after serving the request,
with the response. The read requests return the tracker unchanged because the
Python methods they call only read `self.metrics` and assign nothing. -/
def step (t : BenchmarkTracker) : Req → BenchmarkTracker × Output
  | .record db op d => (t.record db op d none, .ack)
  | .clear => (t.clear, .ack)
  | .getSummary => (t, .summaryList t.get_summary)
  | .getMetrics db op => (t, .metricList (t.get_metrics db op))

/-- Concrete store of the summary scenario: samples with `duration_ms`
12.5, 7.5 and 40 (durations in seconds 1/80, 3/400, 1/25). -/
def c1Store : BenchmarkTracker :=
  ((BenchmarkTracker.empty.record "graph" "create_user" (1/80) none).record
    "graph" "create_user" (3/400) none).record "vector" "search" (1/25) none

/-- Concrete store with one sample whose duration, 1/768 s, has a
millisecond value 125/96 that is not representable with 2 decimals. -/
def c2Store : BenchmarkTracker :=
  BenchmarkTracker.empty.record "graph" "create_user" (1/768) none

/-- Concrete store holding two samples with distinct (subsystem, operation)
pairs whose concatenated grouping keys coincide: both give `a_b_c`. -/
def c3Store : BenchmarkTracker :=
  (BenchmarkTracker.empty.record "a_b" "c" (1/500) none).record
    "a" "b_c" (3/500) none

/-- A second colliding-key store (keys both `u_v_w`), with durations of
1 ms and 3 ms. -/
def c5Store : BenchmarkTracker :=
  (BenchmarkTracker.empty.record "u_v" "w" (1/1000) none).record
    "u" "v_w" (3/1000) none

/-- Concrete store with one 5 ms sample under subsystem `x`, operation `y`. -/
def c10Store : BenchmarkTracker :=
  BenchmarkTracker.empty.record "x" "y" (1/200) none

/-- With both filter arguments non-empty, `get_metrics` keeps exactly the
samples matching both equality tests, i.e. the (subsystem, operation) group. -/
theorem get_metrics_some_some (t : BenchmarkTracker) (s o : String)
    (hs : s ≠ "") (ho : o ≠ "") :
    t.get_metrics (some s) (some o) = pairGroup t s o := by
  simp only [BenchmarkTracker.get_metrics, if_neg hs, if_neg ho,
    List.filter_filter, pairGroup]
  congr 1
  funext m
  exact Bool.and_comm _ _

/-- Claim C1: after recording samples (graph, create_user, 12.5 ms),
(graph, create_user, 7.5 ms) and (vector, search, 40 ms) into an empty
store, `get_summary` returns exactly the two expected group records. -/
theorem C1_summary_scenario :
    (get_all_metrics c1Store).map Metric.duration_ms = [25/2, 15/2, 40] ∧
    c1Store.get_summary =
      [⟨"graph", "create_user", 2, 20, some (15/2), 25/2, 10⟩,
       ⟨"vector", "search", 1, 40, some 40, 40, 40⟩] := by
  have h1 : ("graph" ++ "_" ++ "create_user" : String) = "graph_create_user" := rfl
  have h2 : ("vector" ++ "_" ++ "search" : String) = "vector_search" := rfl
  have h3 : ("graph_create_user" : String) ≠ "vector_search" := by decide
  constructor
  · norm_num [c1Store, get_all_metrics, BenchmarkTracker.empty,
      BenchmarkTracker.record, round2, pyRoundInt]
  · norm_num [c1Store, BenchmarkTracker.get_summary, BenchmarkTracker.empty,
      BenchmarkTracker.record, summaryStep, summaryUpdate, pyMinInf,
      round2, pyRoundInt, h1, h2, h3, h3.symm]

/-- Claim C2, counterexample: recording a duration of 1/768 s stores
`duration_ms = 13/10`, which differs both from the passed value and from its
exact millisecond equivalent 1000/768 = 125/96: the 2-decimal rounding
already happens inside `record`, not only in `get_summary`. -/
theorem C2_record_rounds_counterexample :
    (get_all_metrics c2Store).map Metric.duration_ms = [13/10] ∧
    (13/10 : ℚ) ≠ 1/768 ∧ (13/10 : ℚ) ≠ 1000 * (1/768) := by
  refine ⟨?_, by norm_num, by norm_num⟩
  norm_num [c2Store, get_all_metrics, BenchmarkTracker.empty,
    BenchmarkTracker.record, round2, pyRoundInt]

/-- Claim C2 (amended): `list_all` returns exactly the recorded samples in
call order, each with `duration_ms = round(duration * 1000, 2)` of the
duration passed to `record` — the 2-decimal rounding is applied at record
time, not at list time. -/
theorem C2_list_all_call_order (t : BenchmarkTracker)
    (calls : List (String × String × ℚ)) :
    get_all_metrics (recordAll t calls) =
      get_all_metrics t ++
        calls.map fun c => ⟨c.1, c.2.1, round2 (c.2.2 * 1000), []⟩ := by
  induction calls generalizing t with
  | nil => simp [recordAll, get_all_metrics]
  | cons c cs ih =>
      show get_all_metrics (recordAll (t.record c.1 c.2.1 c.2.2 none) cs) = _
      rw [ih]
      simp [get_all_metrics, BenchmarkTracker.record]

/-- Claim C3: `get_summary` keys groups by the string `db_type ++ "_" ++
operation`, so the two samples of `c3Store`, whose (subsystem, operation)
pairs differ, are merged into a single summary record labelled with the
first pair — the concatenation collides (`a_b_c`). -/
theorem C3_distinct_pairs_merged :
    ((c3Store.metrics.map fun m => (m.db_type, m.operation)) =
      [("a_b", "c"), ("a", "b_c")]) ∧
    (("a_b", "c") : String × String) ≠ ("a", "b_c") ∧
    c3Store.get_summary = [⟨"a_b", "c", 2, 8, some 2, 6, 4⟩] := by
  have h1 : ("a_b" ++ "_" ++ "c" : String) = "a_b_c" := rfl
  have h2 : ("a" ++ "_" ++ "b_c" : String) = "a_b_c" := rfl
  refine ⟨?_, by decide, ?_⟩
  · norm_num [c3Store, BenchmarkTracker.empty, BenchmarkTracker.record]
  · norm_num [c3Store, BenchmarkTracker.get_summary, BenchmarkTracker.empty,
      BenchmarkTracker.record, summaryStep, summaryUpdate, pyMinInf,
      round2, pyRoundInt, h1, h2]

/-- Claim C4: if the wrapped operation raises, the `benchmark` wrapper
leaves the store untouched and propagates the same exception; if it returns
a value, the wrapper appends exactly one sample and returns that value. -/
theorem C4_wrapper_transparent {α ε β : Type} (db_type operation : String)
    (f : α → Except ε β) (start_time end_time : ℚ) (t : BenchmarkTracker)
    (x : α) :
    (∀ e : ε, f x = .error e →
      benchmark db_type operation f start_time end_time t x = (.error e, t)) ∧
    (∀ v : β, f x = .ok v →
      benchmark db_type operation f start_time end_time t x =
        (.ok v,
          ⟨t.metrics ++
            [⟨db_type, operation,
              round2 ((end_time - start_time) * 1000), []⟩]⟩)) := by
  constructor
  · intro e he
    simp [benchmark, he]
  · intro v hv
    simp [benchmark, hv, BenchmarkTracker.record]

/-- Claim C4, witness: a failing operation leaves the store empty and the
error intact; a succeeding one appends its single sample and returns 7. -/
theorem C4_wrapper_transparent_witness :
    benchmark "graph" "create_user"
        (fun _ : Unit => (Except.error "boom" : Except String ℕ)) 0 1
        BenchmarkTracker.empty () = (Except.error "boom", BenchmarkTracker.empty) ∧
    benchmark "graph" "create_user"
        (fun _ : Unit => (Except.ok 7 : Except String ℕ)) 0 1
        BenchmarkTracker.empty () =
      (Except.ok 7,
        ⟨[⟨"graph", "create_user", round2 ((1 - 0) * 1000), []⟩]⟩) :=
  ⟨(C4_wrapper_transparent "graph" "create_user" _ 0 1
      BenchmarkTracker.empty ()).1 "boom" rfl,
   (C4_wrapper_transparent "graph" "create_user" _ 0 1
      BenchmarkTracker.empty ()).2 7 rfl⟩

/-- Claim C5: because `get_summary` groups by the concatenated key, the
record labelled (u_v, w) aggregates both samples of `c5Store` — it reports
`count = 2` and `total_ms = 4` although exactly one stored sample has the
pair (u_v, w), and that sample's durations sum to 1. -/
theorem C5_group_stats_wrong_on_collision :
    (pairGroup c5Store "u_v" "w").length = 1 ∧
    ((pairGroup c5Store "u_v" "w").map Metric.duration_ms).sum = 1 ∧
    c5Store.get_summary = [⟨"u_v", "w", 2, 4, some 1, 3, 2⟩] := by
  have h1 : ("u_v" ++ "_" ++ "w" : String) = "u_v_w" := rfl
  have h2 : ("u" ++ "_" ++ "v_w" : String) = "u_v_w" := rfl
  have d1 : ("u" : String) ≠ "u_v" := by decide
  have d2 : ("v_w" : String) ≠ "w" := by decide
  refine ⟨?_, ?_, ?_⟩
  · norm_num [c5Store, pairGroup, BenchmarkTracker.empty, BenchmarkTracker.record,
      d1, d2]
  · norm_num [c5Store, pairGroup, BenchmarkTracker.empty, BenchmarkTracker.record,
      round2, pyRoundInt, d1, d2]
  · norm_num [c5Store, BenchmarkTracker.get_summary, BenchmarkTracker.empty,
      BenchmarkTracker.record, summaryStep, summaryUpdate, pyMinInf,
      round2, pyRoundInt, h1, h2]

/-- Claim C6: for a non-empty subsystem filter `S`, `get_metrics` returns
exactly the stored samples whose `db_type` equals `S`, in `list_all` order;
when no stored sample has that subsystem the result is the empty list. -/
theorem C6_subsystem_filter (t : BenchmarkTracker) (S : String) (hS : S ≠ "") :
    t.get_metrics (some S) none = (get_all_metrics t).filter (fun m => m.db_type == S) ∧
    ((∀ m ∈ t.metrics, m.db_type ≠ S) → t.get_metrics (some S) none = []) := by
  have hbase : t.get_metrics (some S) none = t.metrics.filter fun m => m.db_type == S := by
    simp [BenchmarkTracker.get_metrics, hS]
  refine ⟨hbase, fun h => ?_⟩
  rw [hbase, List.filter_eq_nil_iff]
  intro m hm
  simpa using h m hm

/-- Claim C6, witness: an unknown subsystem filter on a one-sample store
selects nothing. -/
theorem C6_subsystem_filter_witness :
    (BenchmarkTracker.empty.record "graph" "u" 1 none).get_metrics
      (some "vector") none = [] :=
  (C6_subsystem_filter (BenchmarkTracker.empty.record "graph" "u" 1 none)
    "vector" (by decide)).2 (by decide)

/-- Claim C7: serving a summary request leaves the tracker unchanged, a
second summary request returns the identical response, and `get_summary` is
a function of the current metrics list alone. -/
theorem C7_summary_pure (t t' : BenchmarkTracker) (h : t.metrics = t'.metrics) :
    (step t Req.getSummary).1 = t ∧
    (step ((step t Req.getSummary).1) Req.getSummary).2 = (step t Req.getSummary).2 ∧
    t.get_summary = t'.get_summary := by
  obtain ⟨m⟩ := t
  obtain ⟨m'⟩ := t'
  cases h
  exact ⟨rfl, rfl, rfl⟩

/-- Claim C7, witness: the summary request leaves a one-sample tracker
unchanged. -/
theorem C7_summary_pure_witness :
    (step (BenchmarkTracker.empty.record "graph" "u" 1 none) Req.getSummary).1 =
      BenchmarkTracker.empty.record "graph" "u" 1 none :=
  (C7_summary_pure (BenchmarkTracker.empty.record "graph" "u" 1 none)
    (BenchmarkTracker.empty.record "graph" "u" 1 none) rfl).1

/-- Claim C8: after `clear()`, `list_all`, every `get_metrics` filtering and
`get_summary` all return empty results, whatever the prior contents, and a
second `clear()` changes nothing. -/
theorem C8_clear_empties_store (t : BenchmarkTracker)
    (db_type operation : Option String) :
    get_all_metrics t.clear = [] ∧
    t.clear.get_metrics db_type operation = [] ∧
    t.clear.get_summary = [] ∧
    t.clear.clear = t.clear := by
  refine ⟨rfl, ?_, rfl, rfl⟩
  cases db_type <;> cases operation <;>
    simp [BenchmarkTracker.clear, BenchmarkTracker.get_metrics]

/-- Claim C9: an empty-string filter argument is falsy in Python, so it means
"no filter": it selects all stored samples, not just those whose field is
the empty string. -/
theorem C9_empty_string_is_no_filter (t : BenchmarkTracker)
    (db_type operation : Option String) :
    t.get_metrics (some "") operation = t.get_metrics none operation ∧
    t.get_metrics db_type (some "") = t.get_metrics db_type none ∧
    t.get_metrics (some "") (some "") = get_all_metrics t := by
  refine ⟨?_, ?_, ?_⟩ <;> cases db_type <;> cases operation <;>
    simp [BenchmarkTracker.get_metrics, get_all_metrics]

/-- Claim C10, counterexample: with one stored sample (x, y, 5 ms), no
sample matches the pair ("", y), yet `get_average "" "y"` returns 5, not 0 —
the empty subsystem string disables that filter instead of testing it. -/
theorem C10_empty_string_counterexample :
    (∀ m ∈ c10Store.metrics, ¬(m.db_type = "" ∧ m.operation = "y")) ∧
    c10Store.get_average "" "y" = 5 ∧ (5 : ℚ) ≠ 0 := by
  refine ⟨by decide, ?_, by norm_num⟩
  norm_num [c10Store, BenchmarkTracker.get_average, BenchmarkTracker.get_metrics,
    BenchmarkTracker.empty, BenchmarkTracker.record, round2, pyRoundInt]

/-- Claim C10 (amended): for non-empty subsystem and operation strings,
`get_average` returns 0 whenever no stored sample matches the pair, and the
division only runs over a non-empty matching group. -/
theorem C10_average_zero_guard (t : BenchmarkTracker) (s o : String)
    (hs : s ≠ "") (ho : o ≠ "") :
    (pairGroup t s o = [] → t.get_average s o = 0) ∧
    (pairGroup t s o ≠ [] →
      t.get_average s o =
        ((pairGroup t s o).map Metric.duration_ms).sum /
          ((pairGroup t s o).length : ℚ)) := by
  have hm := get_metrics_some_some t s o hs ho
  constructor
  · intro h
    simp [BenchmarkTracker.get_average, hm, h]
  · intro h
    simp [BenchmarkTracker.get_average, hm, h]

/-- Claim C10 (amended), witness: an unmatched non-empty pair yields 0. -/
theorem C10_average_zero_guard_witness :
    c10Store.get_average "vector" "y" = 0 :=
  (C10_average_zero_guard c10Store "vector" "y" (by decide) (by decide)).1
    (by decide)

end Playground
